import Mathlib

/-!
# West Coast Celebrants website — verification against `src/src/Website.tsx`

Shallow embedding of the interactive behavior of the single-page site:

* theme persistence (`useTheme`, Website.tsx lines 36–44),
* in-page navigation (`goTo`, lines 12–22),
* the reduced-motion adapter (`usePrefersReducedMotion`, lines 24–34,
  together with the document scroll-behavior effect, lines 208–211),
* the mobile-menu scroll lock (effect at lines 213–216, `NavLink`
  lines 50–69, the menu links at lines 328–343),
* the service-card → section-id mapping (`serviceToId`, lines 191–198,
  used at lines 446–472 and 478–498), and
* the contact form submission handler (`ContactForm.onSubmit`,
  lines 97–118) plus its status messages (lines 151–152).

Machine integers do not occur; strings are sequences of Unicode scalar
values (Lean `Char`), which matches the well-formed strings the browser
delivers for the text fields involved.
-/

/-! ## String utilities -/

/-- The characters JavaScript `encodeURIComponent` leaves unescaped besides
ASCII letters and digits: `- _ . ! ~ * ' ( )`. -/
def uriMark (c : Char) : Bool :=
  [ '-', '_', '.', '!', '~', '*', Char.ofNat 39, '(', ')'].contains c

def uriUnescaped (c : Char) : Bool :=
  c.isAlpha || c.isDigit || uriMark c

/-- Uppercase hexadecimal digit, as produced by `encodeURIComponent`. -/
def hexDigit (n : Nat) : Char :=
  if n < 10 then Char.ofNat (48 + n) else Char.ofNat (55 + n)

/-- `%XX` escape of one byte. -/
def percentByte (b : Nat) : String :=
  String.mk ['%', hexDigit (b / 16), hexDigit (b % 16)]

/-- UTF-8 bytes of a Unicode scalar value. (Lone surrogates, the one input
class on which the JS function throws, cannot be represented by `Char`, so
encoding is total here, as it is on all strings the form can hold.) -/
def utf8Bytes (c : Char) : List Nat :=
  let n := c.toNat
  if n < 128 then [n]
  else if n < 2048 then [192 + n / 64, 128 + n % 64]
  else if n < 65536 then [224 + n / 4096, 128 + (n / 64) % 64, 128 + n % 64]
  else [240 + n / 262144, 128 + (n / 4096) % 64, 128 + (n / 64) % 64, 128 + n % 64]

/-- JavaScript `encodeURIComponent`: unreserved characters kept, every other
character percent-encoded byte-by-byte in UTF-8, uppercase hex. -/
def encodeURIComponent (s : String) : String :=
  String.join (s.data.map fun c =>
    if uriUnescaped c then String.mk [c] else String.join ((utf8Bytes c).map percentByte))

/-- `leadsWith pat l` holds when `pat` is an initial segment of `l`. -/
def leadsWith : List Char → List Char → Bool
  | [], _ => true
  | _ :: _, [] => false
  | a :: as, b :: bs => a == b && leadsWith as bs

/-- `containsSeq needle hay`: `needle` occurs contiguously inside `hay`. -/
def containsSeq (needle : List Char) : List Char → Bool
  | [] => leadsWith needle []
  | c :: rest => leadsWith needle (c :: rest) || containsSeq needle rest

/-- Substring test: `strContains hay needle`. -/
def strContains (hay needle : String) : Bool :=
  containsSeq needle.data hay.data

/-- One step of JavaScript `String.prototype.replace` with a string pattern:
replace the first occurrence of `pat` (here always non-empty). -/
def replaceFirstAux (pat repl : List Char) : List Char → List Char
  | [] => []
  | c :: rest =>
    if leadsWith pat (c :: rest) then repl ++ (c :: rest).drop pat.length
    else c :: replaceFirstAux pat repl rest

/-- JS `s.replace(pat, repl)` for a non-empty string pattern `pat`:
replaces the first occurrence only. -/
def replaceFirst (s pat repl : String) : String :=
  String.mk (replaceFirstAux pat.data repl.data s.data)

/-- Last element of a list, with default: used for "state after a sequence
of updates". -/
def lastD {α : Type} (d : α) : List α → α
  | [] => d
  | a :: l => lastD a l

/-! ## Theme manager (`useTheme`, lines 36–44)

The persisted slot is `localStorage` key `"wcc-theme"`; a missing key reads
as `none`. -/

inductive Theme
  | light
  | dark
deriving DecidableEq

/-- The string the hook stores for each theme value. -/
def themeStr : Theme → String
  | Theme.light => "light"
  | Theme.dark => "dark"

/-- Line 39–40: `const saved = localStorage.getItem('wcc-theme');
return saved === 'dark' ? 'dark' : 'light'` — reading a slot value. -/
def getTheme (slot : Option String) : Theme :=
  if slot = some "dark" then Theme.dark else Theme.light

/-- `getTheme` against a whole store, reading key `"wcc-theme"`. -/
def getThemeStore (store : String → Option String) : Theme :=
  getTheme (store "wcc-theme")

/-- Hook state: the React state value plus the storage slot contents. -/
structure ThemeHookState where
  theme : Theme
  slot : Option String
deriving DecidableEq

/-- One `setTheme v` call, through to the `[theme]` effect (line 42): React
bails out when the value is unchanged; otherwise the state updates, the
component re-renders, and the effect then runs
`localStorage.setItem('wcc-theme', theme)`. -/
def applySetTheme (s : ThemeHookState) (v : Theme) : ThemeHookState :=
  if v = s.theme then s
  else { theme := v, slot := some (themeStr v) }

def runSetThemes : ThemeHookState → List Theme → ThemeHookState
  | s, [] => s
  | s, v :: vs => runSetThemes (applySetTheme s v) vs

/-- State after mounting the hook against a store: the initializer reads the
slot (lines 38–40), and the `[theme]` effect runs once after the first
render, persisting the initial theme. -/
def mountThemeHook (store : String → Option String) : ThemeHookState :=
  { theme := getThemeStore store, slot := some (themeStr (getThemeStore store)) }

/-- Observable operations of one `setTheme` call, in execution order.
Per React semantics, `useEffect` callbacks run after the re-render they
depend on has been committed, so a value-changing call re-renders first and
persists second. -/
inductive ThemeOp
  | rerender (t : Theme)
  | persist (t : Theme)
deriving DecidableEq

def setThemeOps (cur v : Theme) : List ThemeOp :=
  if v = cur then [] else [ThemeOp.rerender v, ThemeOp.persist v]

/-! ## Reduced motion and scrolling (lines 12–34 and 208–211) -/

/-- A `ScrollBehavior` value: either the CSS `scroll-behavior` style of the
document element (`"auto"`/`"smooth"`, line 209) or the `behavior` member of
the `scrollIntoView` options (line 16). -/
inductive BehaviorOpt
  | auto
  | smooth
  | instant
deriving DecidableEq

/-- How a scroll actually runs: animated or an instant jump. -/
inductive ScrollMode
  | smooth
  | instant
deriving DecidableEq

/-- Line 209: `document.documentElement.style.scrollBehavior =
prefersReduced ? "auto" : "smooth"`. -/
def rootScrollStyle (prefersReduced : Bool) : BehaviorOpt :=
  if prefersReduced then BehaviorOpt.auto else BehaviorOpt.smooth

/-- Line 16: `el.scrollIntoView({ behavior: "smooth", block: "start" })` —
the option `goTo` passes is the literal `"smooth"`, with no mention of the
reduced-motion flag. -/
def goToBehaviorOpt : BehaviorOpt := BehaviorOpt.smooth

/-- CSSOM View semantics of `scrollIntoView`: an explicit `"smooth"` (or
`"instant"`) in the options selects that mode directly; only `"auto"` defers
to the computed `scroll-behavior` style of the element being scrolled. -/
def effectiveScroll (opt rootStyle : BehaviorOpt) : ScrollMode :=
  match opt with
  | BehaviorOpt.smooth => ScrollMode.smooth
  | BehaviorOpt.instant => ScrollMode.instant
  | BehaviorOpt.auto =>
    match rootStyle with
    | BehaviorOpt.smooth => ScrollMode.smooth
    | _ => ScrollMode.instant

/-- The mode of the scroll `goTo` performs, given the reduced-motion flag
current when the scroll-behavior effect last ran. -/
def goToScrollMode (prefersReduced : Bool) : ScrollMode :=
  effectiveScroll goToBehaviorOpt (rootScrollStyle prefersReduced)

/-- Lines 28: `const onChange = () => setPrefersReduced(mql.matches)` — each
change event overwrites the state with the media query's current value. -/
def prmStep (_state matchNow : Bool) : Bool := matchNow

/-- The hook's state after mount and a sequence of change events: initial
`useState(false)`, then `onChange()` is invoked once at mount (line 29) and
once per change event (line 30), each reading the current `mql.matches`. -/
def prmState (initMatches : Bool) (events : List Bool) : Bool :=
  (initMatches :: events).foldl prmStep false

/-! ## Navigation: `goTo` (lines 12–22) -/

/-- Line 13: `id.replace(/^#/, "")` — strip one leading `'#'` if present. -/
def stripHashData : List Char → List Char
  | [] => []
  | c :: rest => if c = '#' then rest else c :: rest

def stripHash (s : String) : String :=
  String.mk (stripHashData s.data)

/-- Observable effects of a `goTo` call: which element (by id) was scrolled
into view, had `tabindex="-1"` set, and was focused; and the resulting
location fragment when the fallback ran. -/
structure GoToResult where
  scrolled : Option String
  tabIndexSet : Option String
  focused : Option String
  fragment : Option String
deriving DecidableEq

/-- Lines 12–22. The document is modelled as the list of element ids it
contains (`document.getElementById` finds an element iff its id is listed).
The fallback assigns `window.location.hash = id`; per the URL Standard the
hash setter strips a single leading `"#"` from the assigned value, so the
resulting fragment is `stripHash id`. The function is total: no branch
throws. -/
def goTo (dom : List String) (id : String) : GoToResult :=
  let targetId := stripHash id
  if dom.contains targetId then
    { scrolled := some targetId, tabIndexSet := some targetId
    , focused := some targetId, fragment := none }
  else
    { scrolled := none, tabIndexSet := none, focused := none
    , fragment := some (stripHash id) }

/-! ## Contact form (lines 96–155) -/

inductive FormStatus
  | idle
  | sending
  | ok
  | error
deriving DecidableEq

/-- The named fields read from the submitted `FormData`; `FormData.get`
yields `null` (here `none`) for an absent field. -/
structure FormData where
  company : Option String
  name : Option String
  contact : Option String
  type : Option String
  date : Option String
  message : Option String
deriving DecidableEq

/-- JavaScript truthiness of a `FormData.get` result (line 102):
`null` and the empty string are falsy, any other string is truthy. -/
def truthy : Option String → Bool
  | none => false
  | some s => s != ""

/-- Lines 105–109: `String(data.get(k) ?? "")` — an absent field is coerced
to the empty string. -/
def getField (o : Option String) : String :=
  o.getD ""

def mailtoAddress : String := "westcoastcelebrants@gmail.com"

/-- The subject template of line 111: `Enquiry from ${name}` with the name
already percent-encoded. -/
def subjectOf (name : String) : String :=
  "Enquiry from " ++ encodeURIComponent name

/-- The body template of line 112:
`Contact: ${contact}%0AType: ${type}%0ADate: ${date}%0A%0A${message}`. -/
def bodyOf (contact type date message : String) : String :=
  "Contact: " ++ encodeURIComponent contact ++
  "%0AType: " ++ encodeURIComponent type ++
  "%0ADate: " ++ encodeURIComponent date ++
  "%0A%0A" ++ encodeURIComponent message

/-- The full link assigned to `window.location.href` at lines 110–112. -/
def composeMailto (name contact type date message : String) : String :=
  "mailto:" ++ mailtoAddress ++ "?subject=" ++ subjectOf name ++
  "&body=" ++ bodyOf contact type date message

/-- Observable outcome of one `onSubmit` run: the `setStatus` calls made, in
order; the link dispatched to `window.location.href` (if any); and whether
`form.reset()` ran. -/
structure SubmitResult where
  statusTrace : List FormStatus
  link : Option String
  cleared : Bool
deriving DecidableEq

/-- `ContactForm.onSubmit` (lines 98–118). `dispatchFails` models an
exception raised inside the `try` block (composition over `Char` strings is
total, so the navigation hand-off is the fallible step); the single `catch`
arm sets `error` without inspecting the cause and does not retry. -/
def onSubmitRun (d : FormData) (dispatchFails : Bool) : SubmitResult :=
  if truthy d.company then
    { statusTrace := [], link := none, cleared := false }
  else if dispatchFails then
    { statusTrace := [FormStatus.sending, FormStatus.error], link := none, cleared := false }
  else
    { statusTrace := [FormStatus.sending, FormStatus.ok]
    , link := some (composeMailto (getField d.name) (getField d.contact) (getField d.type)
        (getField d.date) (getField d.message))
    , cleared := true }

/-- The paragraph rendered for each terminal status (lines 151–152). -/
def statusMessage : FormStatus → Option String
  | FormStatus.ok => some "Thanks! We’ll get back to you soon."
  | FormStatus.error => some "Sorry, something went wrong. Please email us directly."
  | _ => none

/-! ## Mobile menu (lines 185, 213–216, `NavLink` lines 50–69) -/

/-- The pieces of page state the menu toggle could touch. -/
structure PageState where
  menuOpen : Bool
  bodyOverflow : String
  theme : Theme
  formStatus : FormStatus
deriving DecidableEq

/-- Lines 213–216: `document.body.style.overflow = menuOpen ? "hidden" : ""`,
run whenever `menuOpen` changes. -/
def menuScrollEffect (s : PageState) : PageState :=
  { s with bodyOverflow := if s.menuOpen then "hidden" else "" }

/-- `setMenuOpen(v => !v)` (line 307) followed by the `[menuOpen]` effect. -/
def toggleMenu (s : PageState) : PageState :=
  menuScrollEffect { s with menuOpen := !s.menuOpen }

/-- A click on a mobile-menu `NavLink` (lines 53–61 with the
`onClick={() => setMenuOpen(false)}` of line 340): when
`href.startsWith("#")` — embedded as the character-level prefix test
`leadsWith "#".data href.data` — the default navigation is prevented,
`goTo(href)` runs, and the menu closes (after which the `[menuOpen]`
effect unlocks scrolling). -/
def menuNavClick (dom : List String) (href : String) (s : PageState) :
    PageState × Option GoToResult :=
  if leadsWith "#".data href.data then
    (menuScrollEffect { s with menuOpen := false }, some (goTo dom href))
  else (s, none)

/-! ## Services mapping (lines 191–198, 446–472, 478–498) -/

/-- The section ids rendered by the page: line 352 (`home`) and the
`Section` elements at lines 431, 443, 504, 512, 533, 729, 746, 802, 860,
868, 884, 892. -/
def sectionIds : List String :=
  [ "home", "about", "services", "gallery", "how-it-works", "weddings"
  , "vow-renewals", "naming", "celebration-of-life", "your-funeral"
  , "faq", "privacy", "contact"]

/-- Lines 191–198 with the `?? "services"` fallback of lines 457 and 491:
the `serviceToId` record lookup, defaulting to `"services"` for titles not
present as keys. -/
def resolveService (title : String) : String :=
  if title = "Legal Weddings" then "weddings"
  else if title = "Commitment Weddings" then "weddings"
  else if title = "Elopement Weddings" then "weddings"
  else if title = "Naming Ceremonies" then "naming"
  else if title = "Vow Renewals" then "vow-renewals"
  else if title = "Celebration of Life" then "celebration-of-life"
  else "services"

/-- The card titles of lines 447–452. -/
def cardTitles : List String :=
  [ "Legal Weddings", "Commitment Weddings", "Elopement Weddings"
  , "Naming Ceremonies", "Vow Renewals", "Celebration of Life"]

/-- The divider-list labels of lines 479–484. -/
def dividerLabels : List String :=
  [ "Legal Weddings", "Commitment Weddings", "Elopement Weddings"
  , "Naming Ceremonies", "Vow Renewals", "Celebration of Life Ceremonies"]

/-- Line 486: `label.replace(" Ceremonies", "")`. -/
def dividerKey (label : String) : String :=
  replaceFirst label " Ceremonies" ""

/-! ## Concrete inputs used by witnesses -/

def janeForm : FormData :=
  { company := some "", name := some "Jane", contact := some "jane@example.com"
  , type := some "Legal Wedding", date := some "", message := some "Hello" }

def botForm : FormData :=
  { company := some "bot", name := some "x", contact := none
  , type := none, date := none, message := some "spam" }

def emptyForm : FormData :=
  { company := none, name := none, contact := none
  , type := none, date := none, message := none }

def closedPage : PageState :=
  { menuOpen := false, bodyOverflow := "", theme := Theme.light
  , formStatus := FormStatus.idle }

/-! ## Helper lemmas -/

theorem data_append (a b : String) : (a ++ b).data = a.data ++ b.data := rfl

theorem hash_data : "#".data = ['#'] := rfl

theorem mk_data (s : String) : String.mk s.data = s := rfl

theorem stripHash_hash_append (s : String) : stripHash ("#" ++ s) = s := by
  show String.mk (stripHashData ("#" ++ s).data) = s
  rw [data_append, hash_data]
  simp [stripHashData, mk_data]

theorem stripHash_no_hash (s : String) (h : s.data.head? ≠ some '#') :
    stripHash s = s := by
  obtain ⟨data⟩ := s
  cases data with
  | nil => rfl
  | cons c cs =>
    have hc : ¬ c = '#' := by simpa using h
    simp [stripHash, stripHashData, hc]

theorem getField_empty_truthy {o : Option String} (h : getField o = "") :
    truthy o = false := by
  cases o with
  | none => rfl
  | some s =>
    simp [getField] at h
    simp [truthy, h]

theorem getField_nonempty_truthy {o : Option String} (h : getField o ≠ "") :
    truthy o = true := by
  cases o with
  | none => simp [getField] at h
  | some s =>
    simp [getField] at h
    simp [truthy, h]

theorem foldl_prmStep (l : List Bool) : ∀ a, l.foldl prmStep a = lastD a l := by
  induction l with
  | nil => intro a; rfl
  | cons b l ih => intro a; rw [List.foldl_cons]; exact ih b

theorem applySetTheme_theme (s : ThemeHookState) (v : Theme) :
    (applySetTheme s v).theme = v := by
  unfold applySetTheme
  by_cases hv : v = s.theme
  · rw [if_pos hv, hv]
  · rw [if_neg hv]

theorem applySetTheme_slot (s : ThemeHookState) (v : Theme)
    (h : s.slot = some (themeStr s.theme)) :
    (applySetTheme s v).slot = some (themeStr (applySetTheme s v).theme) := by
  unfold applySetTheme
  by_cases hv : v = s.theme
  · rw [if_pos hv]; exact h
  · rw [if_neg hv]

theorem runSetThemes_inv (vs : List Theme) : ∀ s : ThemeHookState,
    s.slot = some (themeStr s.theme) →
    (runSetThemes s vs).slot = some (themeStr (runSetThemes s vs).theme)
    ∧ (runSetThemes s vs).theme = lastD s.theme vs := by
  induction vs with
  | nil => intro s h; exact ⟨h, rfl⟩
  | cons v vs ih =>
    intro s h
    have h1 := applySetTheme_slot s v h
    have h2 := ih (applySetTheme s v) h1
    refine ⟨h2.1, ?_⟩
    show (runSetThemes (applySetTheme s v) vs).theme = lastD v vs
    rw [h2.2, applySetTheme_theme]

theorem getTheme_themeStr (t : Theme) : getTheme (some (themeStr t)) = t := by
  cases t <;> rfl

/-! ## Claim theorems -/

/-- C1: For every contact-form submission with the honeypot field empty, the
dispatched link is exactly the `mailto:` template of lines 110–112 — fixed
address `westcoastcelebrants@gmail.com`, subject `Enquiry from <name>`, body
`Contact: <contact>\nType: <type>\nDate: <date>\n\n<message>` — with each of
the five field values percent-encoded before insertion and the template's
newlines appearing as `%0A`, the percent-encoding of `"\n"`; for
name `"Jane"`, type `"Legal Wedding"`, message `"Hello"` the subject
contains `"Jane"` and the body contains the encodings of `"Legal Wedding"`
and `"Hello"`, and the status ends at `ok`. -/
theorem mailto_composition (d : FormData) (h : getField d.company = "") :
    (onSubmitRun d false).link =
      some (composeMailto (getField d.name) (getField d.contact) (getField d.type)
        (getField d.date) (getField d.message))
    ∧ lastD FormStatus.idle (onSubmitRun d false).statusTrace = FormStatus.ok
    ∧ encodeURIComponent "\n" = "%0A"
    ∧ strContains (subjectOf "Jane") "Jane" = true
    ∧ strContains (bodyOf "jane@example.com" "Legal Wedding" "" "Hello")
        (encodeURIComponent "Legal Wedding") = true
    ∧ strContains (bodyOf "jane@example.com" "Legal Wedding" "" "Hello")
        (encodeURIComponent "Hello") = true := by
  have ht := getField_empty_truthy h
  refine ⟨?_, ?_, by decide, by decide, by decide, by decide⟩
  · simp [onSubmitRun, ht]
  · simp [onSubmitRun, ht, lastD]

theorem mailto_composition_witness :
    getField janeForm.company = ""
    ∧ ((onSubmitRun janeForm false).link =
        some (composeMailto (getField janeForm.name) (getField janeForm.contact)
          (getField janeForm.type) (getField janeForm.date) (getField janeForm.message))
      ∧ lastD FormStatus.idle (onSubmitRun janeForm false).statusTrace = FormStatus.ok
      ∧ encodeURIComponent "\n" = "%0A"
      ∧ strContains (subjectOf "Jane") "Jane" = true
      ∧ strContains (bodyOf "jane@example.com" "Legal Wedding" "" "Hello")
          (encodeURIComponent "Legal Wedding") = true
      ∧ strContains (bodyOf "jane@example.com" "Legal Wedding" "" "Hello")
          (encodeURIComponent "Hello") = true) :=
  ⟨rfl, mailto_composition janeForm rfl⟩

/-- C2: A submission whose honeypot field is non-empty aborts silently (the
early `return` of line 102): no `setStatus` call is made, so the status is
unchanged whatever it was, no link is composed or dispatched, and the form
is not reset. -/
theorem honeypot_silent_abort (d : FormData) (dispatchFails : Bool)
    (initial : FormStatus) (h : getField d.company ≠ "") :
    onSubmitRun d dispatchFails = { statusTrace := [], link := none, cleared := false }
    ∧ lastD initial (onSubmitRun d dispatchFails).statusTrace = initial := by
  have ht := getField_nonempty_truthy h
  constructor
  · simp [onSubmitRun, ht]
  · simp [onSubmitRun, ht, lastD]

theorem honeypot_silent_abort_witness :
    getField botForm.company ≠ ""
    ∧ (onSubmitRun botForm false = { statusTrace := [], link := none, cleared := false }
      ∧ lastD FormStatus.idle (onSubmitRun botForm false).statusTrace = FormStatus.idle) :=
  ⟨by decide, honeypot_silent_abort botForm false FormStatus.idle (by decide)⟩

/-- C3: With the honeypot empty, the status first becomes `sending`
(line 103); if nothing in the `try` block throws, it becomes `ok` and the
form is reset (lines 113–114); if an exception is raised during
composition/dispatch, it becomes `error`, the single generic message
"Sorry, something went wrong. Please email us directly." is rendered for
that status (line 152) with no case distinction on the cause, and there is
no automatic retry — exactly one `sending` transition occurs per attempt. -/
theorem submit_status_machine (d : FormData) (dispatchFails : Bool)
    (h : getField d.company = "") :
    (onSubmitRun d dispatchFails).statusTrace.head? = some FormStatus.sending
    ∧ (dispatchFails = false →
        (onSubmitRun d false).statusTrace = [FormStatus.sending, FormStatus.ok]
        ∧ (onSubmitRun d false).cleared = true)
    ∧ (dispatchFails = true →
        (onSubmitRun d true).statusTrace = [FormStatus.sending, FormStatus.error]
        ∧ (onSubmitRun d true).cleared = false
        ∧ (onSubmitRun d true).link = none
        ∧ statusMessage FormStatus.error
            = some "Sorry, something went wrong. Please email us directly.")
    ∧ (onSubmitRun d dispatchFails).statusTrace.count FormStatus.sending = 1 := by
  have ht := getField_empty_truthy h
  cases dispatchFails <;>
    simp [onSubmitRun, ht, statusMessage]

theorem submit_status_machine_witness :
    getField emptyForm.company = ""
    ∧ ((onSubmitRun emptyForm true).statusTrace.head? = some FormStatus.sending
      ∧ (true = false →
          (onSubmitRun emptyForm false).statusTrace = [FormStatus.sending, FormStatus.ok]
          ∧ (onSubmitRun emptyForm false).cleared = true)
      ∧ (true = true →
          (onSubmitRun emptyForm true).statusTrace = [FormStatus.sending, FormStatus.error]
          ∧ (onSubmitRun emptyForm true).cleared = false
          ∧ (onSubmitRun emptyForm true).link = none
          ∧ statusMessage FormStatus.error
              = some "Sorry, something went wrong. Please email us directly.")
      ∧ (onSubmitRun emptyForm true).statusTrace.count FormStatus.sending = 1) :=
  ⟨rfl, submit_status_machine emptyForm true rfl⟩

/-- C4 counterexample: the claim says that with the reduced-motion flag true
at call time, `goTo`'s scroll is an instant jump. It is not: line 16 passes
the literal `behavior: "smooth"` without consulting the flag, and an
explicit `"smooth"` option overrides the document's `scroll-behavior: auto`
style set by the reduced-motion effect, so the scroll is animated. -/
theorem goTo_reduced_motion_counterexample :
    goToScrollMode true = ScrollMode.smooth
    ∧ goToScrollMode true ≠ ScrollMode.instant
    ∧ goToBehaviorOpt = BehaviorOpt.smooth := by
  decide

/-- C4 amended: `goTo` always requests `"smooth"` scrolling, independent of
the reduced-motion flag, so its scroll stays animated even when the flag is
true at call time; the flag instead drives the document-level
`scroll-behavior` style (`"auto"` under reduced motion, `"smooth"`
otherwise), and the reduced-motion observer re-evaluates the system
preference on every change event — after any event sequence its state is
the most recent `matches` value, not the startup value. -/
theorem goTo_reduced_motion_amended :
    (∀ prefersReduced : Bool, goToScrollMode prefersReduced = ScrollMode.smooth)
    ∧ rootScrollStyle true = BehaviorOpt.auto
    ∧ rootScrollStyle false = BehaviorOpt.smooth
    ∧ ∀ (initMatches : Bool) (events : List Bool),
        prmState initMatches events = lastD initMatches events := by
  refine ⟨fun pr => by cases pr <;> rfl, rfl, rfl, fun i evs => ?_⟩
  show (i :: evs).foldl prmStep false = lastD i evs
  rw [List.foldl_cons]
  exact foldl_prmStep evs i

/-- C5: For a section id `s` (no leading `'#'`), `goTo s` and `goTo ("#"++s)`
have identical effects; when an element with that id exists, `goTo` scrolls
it into view, makes it focusable, and focuses it, touching no fragment;
when none exists it does not throw and its only effect is setting the
location fragment to `s`. -/
theorem goTo_hash_equiv (dom : List String) (s : String)
    (h : s.data.head? ≠ some '#') :
    goTo dom ("#" ++ s) = goTo dom s
    ∧ (dom.contains s = true →
        goTo dom s = { scrolled := some s, tabIndexSet := some s
                     , focused := some s, fragment := none })
    ∧ (dom.contains s = false →
        goTo dom s = { scrolled := none, tabIndexSet := none
                     , focused := none, fragment := some s }) := by
  have h1 := stripHash_hash_append s
  have h2 := stripHash_no_hash s h
  refine ⟨?_, ?_, ?_⟩
  · simp [goTo, h1, h2]
  · intro hm
    have hm2 : s ∈ dom := by simpa using hm
    simp [goTo, h2, hm2]
  · intro hm
    have hm2 : s ∉ dom := by simpa using hm
    simp [goTo, h2, hm2]

theorem goTo_hash_equiv_witness :
    "contact".data.head? ≠ some '#'
    ∧ (goTo ["home", "contact"] ("#" ++ "contact") = goTo ["home", "contact"] "contact"
      ∧ (["home", "contact"].contains "contact" = true →
          goTo ["home", "contact"] "contact" =
            { scrolled := some "contact", tabIndexSet := some "contact"
            , focused := some "contact", fragment := none })
      ∧ (["home", "contact"].contains "contact" = false →
          goTo ["home", "contact"] "contact" =
            { scrolled := none, tabIndexSet := none
            , focused := none, fragment := some "contact" })) :=
  ⟨by decide, goTo_hash_equiv ["home", "contact"] "contact" (by decide)⟩

/-- C6: `getTheme` on startup returns `dark` exactly when the storage slot
under key `"wcc-theme"` holds `"dark"`; an absent slot or any other value
yields `light` (lines 38–40). -/
theorem theme_init_spec (store : String → Option String) :
    (getThemeStore store = Theme.dark ↔ store "wcc-theme" = some "dark")
    ∧ (getThemeStore store = Theme.light ↔ store "wcc-theme" ≠ some "dark") := by
  by_cases h : store "wcc-theme" = some "dark" <;>
    simp [getThemeStore, getTheme, h]

/-- C7 counterexample: the claim says each `setTheme` call persists the new
value before any dependent re-render. In the code the persist happens in a
`useEffect` with dependency `[theme]` (line 42), and React runs effects
after the re-render they depend on has been committed: the first observable
operation of a value-changing `setTheme` call is the re-render, not the
persist. -/
theorem setTheme_persist_order_counterexample :
    setThemeOps Theme.light Theme.dark
      = [ThemeOp.rerender Theme.dark, ThemeOp.persist Theme.dark]
    ∧ (setThemeOps Theme.light Theme.dark).head? = some (ThemeOp.rerender Theme.dark)
    ∧ (setThemeOps Theme.light Theme.dark).head? ≠ some (ThemeOp.persist Theme.dark) := by
  decide

/-- C7 amended: every value-changing `setTheme v` persists `v` under the
same key `"wcc-theme"` in an effect that runs after the dependent re-render
(within the same update cycle), and a same-value call leaves state and slot
unchanged; consequently, after any sequence of `setTheme` calls from a
mounted hook the slot holds exactly the string for the current theme, the
final theme is the last value set (or the initial theme when none was set),
and a reload's `getTheme` returns it. -/
theorem theme_persistence_spec (store : String → Option String) (vs : List Theme) :
    (runSetThemes (mountThemeHook store) vs).theme = lastD (getThemeStore store) vs
    ∧ (runSetThemes (mountThemeHook store) vs).slot
        = some (themeStr (runSetThemes (mountThemeHook store) vs).theme)
    ∧ getTheme (runSetThemes (mountThemeHook store) vs).slot
        = (runSetThemes (mountThemeHook store) vs).theme := by
  have h0 : (mountThemeHook store).slot = some (themeStr (mountThemeHook store).theme) := rfl
  have h := runSetThemes_inv vs (mountThemeHook store) h0
  refine ⟨h.2, h.1, ?_⟩
  rw [h.1, getTheme_themeStr]

/-- C8: From a closed menu in the state the scroll-lock effect maintains
(empty inline `overflow`), toggling opens the menu and sets
`body.style.overflow = "hidden"` (background scroll disabled); toggling
again restores the state exactly, inline `overflow` included; the toggle
touches neither theme nor form status; and clicking a fragment-href
navigation link inside the open menu runs `goTo` and implicitly closes the
menu, unlocking scroll. -/
theorem menu_toggle_spec (s : PageState) (dom : List String) (href : String)
    (hm : s.menuOpen = false) (hb : s.bodyOverflow = "")
    (hh : leadsWith "#".data href.data = true) :
    (toggleMenu s).menuOpen = true
    ∧ (toggleMenu s).bodyOverflow = "hidden"
    ∧ toggleMenu (toggleMenu s) = s
    ∧ (toggleMenu s).theme = s.theme
    ∧ (toggleMenu s).formStatus = s.formStatus
    ∧ (menuNavClick dom href (toggleMenu s)).fst.menuOpen = false
    ∧ (menuNavClick dom href (toggleMenu s)).fst.bodyOverflow = ""
    ∧ (menuNavClick dom href (toggleMenu s)).snd = some (goTo dom href) := by
  obtain ⟨mo, bo, th, fs⟩ := s
  obtain rfl : mo = false := hm
  obtain rfl : bo = "" := hb
  refine ⟨rfl, rfl, rfl, rfl, rfl, ?_, ?_, ?_⟩ <;>
    simp [menuNavClick, toggleMenu, menuScrollEffect, hh]

theorem menu_toggle_spec_witness :
    (closedPage.menuOpen = false ∧ closedPage.bodyOverflow = ""
      ∧ leadsWith "#".data "#about".data = true)
    ∧ ((toggleMenu closedPage).menuOpen = true
      ∧ (toggleMenu closedPage).bodyOverflow = "hidden"
      ∧ toggleMenu (toggleMenu closedPage) = closedPage
      ∧ (toggleMenu closedPage).theme = closedPage.theme
      ∧ (toggleMenu closedPage).formStatus = closedPage.formStatus
      ∧ (menuNavClick ["about"] "#about" (toggleMenu closedPage)).fst.menuOpen = false
      ∧ (menuNavClick ["about"] "#about" (toggleMenu closedPage)).fst.bodyOverflow = ""
      ∧ (menuNavClick ["about"] "#about" (toggleMenu closedPage)).snd
          = some (goTo ["about"] "#about")) :=
  ⟨⟨rfl, rfl, by decide⟩, menu_toggle_spec closedPage ["about"] "#about" rfl rfl (by decide)⟩

/-- C9: Every service card title and every divider-list entry (after its
`" Ceremonies"`-stripping key computation) resolves through `serviceToId`
with its `"services"` fallback to an id in the fixed anchor set — i.e. to
an existing section id of the page. -/
theorem service_targets_valid :
    ((cardTitles.all fun t => sectionIds.contains (resolveService t))
      && (dividerLabels.all fun l =>
            sectionIds.contains (resolveService (dividerKey l)))) = true := by
  decide

/-- C10: Mail-link composition is total over absent fields: with the
honeypot not truthy, each missing field reads as `null` and is coerced to
`""` (lines 105–109), so the dispatched link always carries all five
labeled parts; in particular the all-fields-absent submission composes the
link with empty values, and no step of composition can fail. -/
theorem mailto_total_fields (d : FormData) (h : getField d.company = "") :
    (onSubmitRun d false).link
      = some (composeMailto (d.name.getD "") (d.contact.getD "") (d.type.getD "")
          (d.date.getD "") (d.message.getD ""))
    ∧ getField (none : Option String) = ""
    ∧ (onSubmitRun emptyForm false).link
        = some "mailto:westcoastcelebrants@gmail.com?subject=Enquiry from &body=Contact: %0AType: %0ADate: %0A%0A" := by
  have ht := getField_empty_truthy h
  refine ⟨by simp [onSubmitRun, ht, getField], rfl, by decide⟩

theorem mailto_total_fields_witness :
    getField emptyForm.company = ""
    ∧ ((onSubmitRun emptyForm false).link
        = some (composeMailto (emptyForm.name.getD "") (emptyForm.contact.getD "")
            (emptyForm.type.getD "") (emptyForm.date.getD "") (emptyForm.message.getD ""))
      ∧ getField (none : Option String) = ""
      ∧ (onSubmitRun emptyForm false).link
          = some "mailto:westcoastcelebrants@gmail.com?subject=Enquiry from &body=Contact: %0AType: %0ADate: %0A%0A") :=
  ⟨rfl, mailto_total_fields emptyForm rfl⟩
